import Mathlib

/-!
Shallow embedding of `lib/website.py` from the zulip-archive repository.

The module under study is the static-site generation pipeline: `build_website`
loads the stream/topic hierarchy once, computes a shared footer, writes the
main page, publishes the stylesheet, writes one page per stream and one page
per topic, and finally copies the static asset tree and the `.nojekyll`
marker file.

Collaborators (the `lib.url`, `lib.files` and `lib.html` helpers, plus the
filesystem copy primitives) are modelled as fields of a `Collab` structure;
fallible ones return `Except Err`.  A run of the build is modelled as the
list of observable effects (file writes with their full content, copies,
progress prints) together with an optional error: Python exceptions
short-circuit the remaining statements, which the `runActions` interpreter
reproduces.
-/

namespace ZulipArchive

/-- Errors raised by collaborators (DataLoadError, IOError, ...). -/
abbrev Err := String

/-- Topic metadata is opaque to the core: it is only passed through to the
renderer collaborators. -/
abbrev Topic := String

/-- Messages are opaque to the core: each is passed to `format_message_html`. -/
abbrev Msg := String

/-- One stream: its numeric id and its topic mapping.  Python iterates the
`topic_data` dict in insertion order, which the association list preserves. -/
structure Stream where
  id : Int
  topic_data : List (String × Topic)
deriving Repr, DecidableEq

/-- The value returned by `read_zulip_stream_info`: the `streams` mapping
(dict, iterated in insertion order) plus the rest of the JSON object, which
the core only forwards to `last_updated_footer_html`. -/
structure StreamInfo where
  streams : List (String × Stream)
  extra : String
deriving Repr, DecidableEq

/-- Observable effects of one build run.  Page-write events record the raw
stream/topic names of the call that produced them, the path returned by the
file-opening collaborator, and the full content written to the handle
(concatenation of the `outfile.write` calls, in order). -/
inductive Event where
  | print (label arg : String)
  | writeMain (path content : String)
  | writeStream (stream_name path content : String)
  | writeTopic (stream_name topic_name path content : String)
  | copyFile (src dst : String)
  | copyTree (src dst : String)
deriving Repr, DecidableEq

/-- The collaborator modules used by `lib/website.py`.  Pure renderers and
sanitizers are total functions; readers, file opens and filesystem copies
may raise, hence `Except Err`. -/
structure Collab where
  read_zulip_stream_info : String → Except Err StreamInfo
  read_zulip_messages_for_topic : String → String → String → Except Err (List Msg)
  open_main_page : String → Except Err String
  open_stream_topics_page : String → String → Except Err String
  open_topic_messages_page : String → String → String → Except Err String
  copyfile_ok : String → String → Except Err Unit
  copytree_ok : String → String → Except Err Unit
  sanitize_stream : String → Int → String
  sanitize : String → String
  archive_stream_url : String → String → String → String
  last_updated_footer_html : StreamInfo → String
  stream_list_page_html : List (String × Stream) → String
  topic_list_page_html : String → String → List (String × Topic) → String
  topic_page_links_html : String → String → String → String → String → String → String → String
  format_message_html : String → String → String → String → String → Int → String → Msg → String

/-- Python `html.escape(s)` with the default `quote=True`: replaces the five
special characters by their entity references. -/
def escapeChar (ch : Char) : String :=
  if ch = '&' then "&amp;"
  else if ch = '<' then "&lt;"
  else if ch = '>' then "&gt;"
  else if ch = Char.ofNat 34 then "&quot;"
  else if ch = Char.ofNat 39 then "&#x27;"
  else String.singleton ch

/-- `html.escape` applied to a whole string. -/
def htmlEscape (s : String) : String :=
  String.join (s.data.map escapeChar)

/-- `to_topic_page_head_html` from `lib/website.py`. -/
def to_topic_page_head_html (title : String) : String :=
  "<html>\n<head><meta charset=\"utf-8\"><title>" ++ title ++ "</title></head>\n"

/-- `write_main_page`: opens the main page handle, then writes page head,
stream-list fragment, date footer and static footer. -/
def write_main_page (c : Collab)
    (md_root site_url html_root title : String)
    (streams : List (String × Stream))
    (date_footer_html page_head_html page_footer_html : String) :
    Except Err Event :=
  match c.open_main_page md_root with
  | .error e => .error e
  | .ok path =>
    let content_html := c.stream_list_page_html streams
    .ok (.writeMain path
      (page_head_html ++ content_html ++ date_footer_html ++ page_footer_html))

/-- `write_stream_topics`: sanitizes the stream name, opens the stream page
handle, then writes page head, topic-list fragment, date footer and static
footer. -/
def write_stream_topics (c : Collab)
    (md_root site_url html_root title stream_name : String)
    (stream : Stream)
    (date_footer_html page_head_html page_footer_html : String) :
    Except Err Event :=
  let sanitized_stream_name := c.sanitize_stream stream_name stream.id
  match c.open_stream_topics_page md_root sanitized_stream_name with
  | .error e => .error e
  | .ok path =>
    let stream_url := c.archive_stream_url site_url html_root sanitized_stream_name
    let topic_data := stream.topic_data
    let content_html := c.topic_list_page_html stream_name stream_url topic_data
    .ok (.writeStream stream_name path
      (page_head_html ++ content_html ++ date_footer_html ++ page_footer_html))

/-- `write_topic_messages`: sanitizes names, reads the message sequence,
opens the topic page handle, then writes the topic-specific head (escaped
topic and stream names, verbatim site title), the navigation links, a second
head element holding the stylesheet link, every rendered message followed by
a blank line, the date footer and the static footer.  The shared
`page_head_html` parameter is accepted but never written. -/
def write_topic_messages (c : Collab)
    (json_root md_root site_url html_root title zulip_url zulip_icon_url : String)
    (stream_name : String) (stream : Stream) (topic_name : String)
    (date_footer_html page_head_html page_footer_html : String) :
    Except Err Event :=
  let stream_id := stream.id
  let sanitized_stream_name := c.sanitize_stream stream_name stream_id
  let sanitized_topic_name := c.sanitize topic_name
  match c.read_zulip_messages_for_topic json_root sanitized_stream_name sanitized_topic_name with
  | .error e => .error e
  | .ok messages =>
    match c.open_topic_messages_page md_root sanitized_stream_name sanitized_topic_name with
    | .error e => .error e
    | .ok path =>
      let topic_links := c.topic_page_links_html site_url html_root zulip_url
        sanitized_stream_name sanitized_topic_name stream_name topic_name
      let head := to_topic_page_head_html
        (htmlEscape topic_name ++ " · " ++ htmlEscape stream_name ++ " · " ++ title)
      let css_link := "\n<head><link href=\"" ++ htmlEscape site_url ++
        "/style.css\" rel=\"stylesheet\"></head>\n"
      let body := String.join (messages.map (fun msg =>
        c.format_message_html site_url html_root zulip_url zulip_icon_url
          stream_name stream_id topic_name msg ++ "\n\n"))
      .ok (.writeTopic stream_name topic_name path
        (head ++ topic_links ++ css_link ++ body ++ date_footer_html ++ page_footer_html))

/-- `write_css`: `copyfile("style.css", md_root / "style.css")` — the source
path is the literal relative string, resolved against the working directory,
independent of any build parameter. -/
def write_css (c : Collab) (md_root : String) : Except Err Event :=
  match c.copyfile_ok "style.css" (md_root ++ "/style.css") with
  | .error e => .error e
  | .ok _ => .ok (.copyFile "style.css" (md_root ++ "/style.css"))

/-- The `copytree(repo_root/assets, md_root/assets, dirs_exist_ok=True)` step. -/
def copyAssetsAction (c : Collab) (repo_root md_root : String) : Except Err Event :=
  match c.copytree_ok (repo_root ++ "/assets") (md_root ++ "/assets") with
  | .error e => .error e
  | .ok _ => .ok (.copyTree (repo_root ++ "/assets") (md_root ++ "/assets"))

/-- The `copyfile(repo_root/.nojekyll, md_root/.nojekyll)` step. -/
def copyNojekyllAction (c : Collab) (repo_root md_root : String) : Except Err Event :=
  match c.copyfile_ok (repo_root ++ "/.nojekyll") (md_root ++ "/.nojekyll") with
  | .error e => .error e
  | .ok _ => .ok (.copyFile (repo_root ++ "/.nojekyll") (md_root ++ "/.nojekyll"))

/-- The body of the per-stream loop of `build_website`: progress print, one
stream page, then one topic page per entry of the topic mapping in its
iteration order. -/
def streamActions (c : Collab)
    (json_root md_root site_url html_root title zulip_url zulip_icon_url : String)
    (date_footer_html page_head_html page_footer_html : String)
    (entry : String × Stream) : List (Except Err Event) :=
  .ok (.print "building: " entry.1)
    :: write_stream_topics c md_root site_url html_root title entry.1 entry.2
        date_footer_html page_head_html page_footer_html
    :: entry.2.topic_data.map (fun t =>
        write_topic_messages c json_root md_root site_url html_root title
          zulip_url zulip_icon_url entry.1 entry.2 t.1
          date_footer_html page_head_html page_footer_html)

/-- The linearization of the statements of `build_website` after the stream
info has been loaded, in source order: main page, stylesheet, the per-stream
loop, asset tree copy, `.nojekyll` copy. -/
def buildActions (c : Collab)
    (json_root md_root site_url html_root title zulip_url zulip_icon_url
      repo_root page_head_html page_footer_html : String)
    (stream_info : StreamInfo) : List (Except Err Event) :=
  write_main_page c md_root site_url html_root title stream_info.streams
      (c.last_updated_footer_html stream_info) page_head_html page_footer_html
    :: write_css c md_root
    :: (stream_info.streams.flatMap (streamActions c json_root md_root site_url
          html_root title zulip_url zulip_icon_url
          (c.last_updated_footer_html stream_info) page_head_html
          page_footer_html)
        ++ [copyAssetsAction c repo_root md_root,
            copyNojekyllAction c repo_root md_root])

/-- Sequential execution with exception propagation: actions run in order,
each successful one appends its event to the trace, and the first failure
aborts the run with that error, executing nothing further. -/
def runActions : List (Except Err Event) → List Event × Option Err
  | [] => ([], none)
  | .error e :: _ => ([], some e)
  | .ok ev :: rest =>
    let r := runActions rest
    (ev :: r.1, r.2)

/-- `build_website`: load the stream info, compute the shared date footer
once, then run the write/copy sequence.  Returns the trace of effects and
the propagated error, if any. -/
def build_website (c : Collab)
    (json_root md_root site_url html_root title zulip_url zulip_icon_url
      repo_root page_head_html page_footer_html : String) :
    List Event × Option Err :=
  match c.read_zulip_stream_info json_root with
  | .error e => ([], some e)
  | .ok stream_info =>
    runActions (buildActions c json_root md_root site_url html_root title
      zulip_url zulip_icon_url repo_root page_head_html page_footer_html
      stream_info)

/-- Summary of an event: its constructor together with the fields that are
determined by the inputs alone (paths and page contents, which depend on
collaborator return values, are dropped). -/
inductive Ev where
  | print (arg : String)
  | main
  | stream (stream_name : String)
  | topic (stream_name topic_name : String)
  | cfile (src dst : String)
  | ctree (src dst : String)
deriving Repr, DecidableEq

/-- Forget paths and contents of an event. -/
def summarize : Event → Ev
  | .print _ a => .print a
  | .writeMain _ _ => .main
  | .writeStream sn _ _ => .stream sn
  | .writeTopic sn tn _ _ => .topic sn tn
  | .copyFile s d => .cfile s d
  | .copyTree s d => .ctree s d

/-- Whether an action succeeded. -/
def isOk : Except Err Event → Bool
  | .ok _ => true
  | .error _ => false

/-- The events of the successful actions of a list, in order. -/
def okEvents : List (Except Err Event) → List Event
  | [] => []
  | .ok ev :: rest => ev :: okEvents rest
  | .error _ :: rest => okEvents rest

/-- The summarized successful events of an action list. -/
def summaries (l : List (Except Err Event)) : List Ev :=
  (okEvents l).map summarize

/-- The content written to a page file, if the event is a page write. -/
def pageContent : Event → Option String
  | .writeMain _ content => some content
  | .writeStream _ _ content => some content
  | .writeTopic _ _ _ content => some content
  | _ => none

/-- Main-page write events. -/
def isMainEv : Event → Bool
  | .writeMain _ _ => true
  | _ => false

/-- Stream-page write events. -/
def isStreamEv : Event → Bool
  | .writeStream _ _ _ => true
  | _ => false

/-- Topic-page write events. -/
def isTopicEv : Event → Bool
  | .writeTopic _ _ _ _ => true
  | _ => false

/-- Summarized main-page writes. -/
def isMainSum : Ev → Bool
  | .main => true
  | _ => false

/-- Summarized stream-page writes. -/
def isStreamSum : Ev → Bool
  | .stream _ => true
  | _ => false

/-- Summarized topic-page writes. -/
def isTopicSum : Ev → Bool
  | .topic _ _ => true
  | _ => false

/-- The head element the specification describes for a topic page:
`html.escape` applied to the whole combined `topic · stream · title` string,
so that the site title would also be escaped.  Stated from the spec text for
comparison with what `write_topic_messages` actually emits. -/
def spec_topic_page_head_html (topic_name stream_name title : String) : String :=
  to_topic_page_head_html
    (htmlEscape (topic_name ++ " · " ++ stream_name ++ " · " ++ title))

/-- A small concrete stream collection: one stream with two topics and one
stream with an empty topic mapping. -/
def demoSI : StreamInfo :=
  ⟨[("general", ⟨1, [("welcome", "t1"), ("lunch", "t2")]⟩),
    ("empty", ⟨2, []⟩)], "2021-04"⟩

/-- A collaborator assembly whose calls all succeed, used to evaluate the
build on concrete inputs. -/
def okCollab : Collab where
  read_zulip_stream_info := fun _ => .ok demoSI
  read_zulip_messages_for_topic := fun _ _ _ => .ok ["hello", "world"]
  open_main_page := fun m => .ok (m ++ "/index.html")
  open_stream_topics_page := fun m s => .ok (m ++ "/" ++ s ++ "/index.html")
  open_topic_messages_page := fun m s t => .ok (m ++ "/" ++ s ++ "/" ++ t ++ ".html")
  copyfile_ok := fun _ _ => .ok ()
  copytree_ok := fun _ _ => .ok ()
  sanitize_stream := fun n i => toString i ++ "-" ++ n
  sanitize := fun n => n
  archive_stream_url := fun s h n => s ++ "/" ++ h ++ "/" ++ n
  last_updated_footer_html := fun si => "<hr>updated " ++ si.extra
  stream_list_page_html := fun ss => "<ul>" ++ toString ss.length ++ "</ul>"
  topic_list_page_html := fun n u td => "<h2>" ++ n ++ "</h2>" ++ u ++ toString td.length
  topic_page_links_html := fun _ _ _ _ _ _ _ => "[links]"
  format_message_html := fun _ _ _ _ _ _ _ msg => "<p>" ++ msg ++ "</p>"

/-- A collaborator assembly whose stream-page open raises, used to observe
error propagation. -/
def failCollab : Collab :=
  { okCollab with open_stream_topics_page := fun _ _ => .error "boom" }

/-- The summarized shape of the per-stream block of the build loop. -/
def streamShape (p : String × Stream) : List Ev :=
  .print p.1 :: .stream p.1 :: p.2.topic_data.map fun tp => Ev.topic p.1 tp.1

theorem isOk_iff {a : Except Err Event} : isOk a = true ↔ ∃ ev, a = .ok ev := by
  cases a <;> simp [isOk]

theorem runActions_snd_none {l : List (Except Err Event)}
    (h : (runActions l).2 = none) : ∀ a ∈ l, isOk a = true := by
  induction l with
  | nil => intro a ha; cases ha
  | cons a rest ih =>
    cases a with
    | error e => simp [runActions] at h
    | ok ev =>
      intro b hb
      rcases List.mem_cons.mp hb with rfl | hb
      · rfl
      · exact ih (by simpa [runActions] using h) b hb

theorem runActions_fst_eq_okEvents {l : List (Except Err Event)}
    (h : (runActions l).2 = none) : (runActions l).1 = okEvents l := by
  induction l with
  | nil => rfl
  | cons a rest ih =>
    cases a with
    | error e => simp [runActions] at h
    | ok ev =>
      have h2 : (runActions rest).2 = none := by simpa [runActions] using h
      simpa [runActions, okEvents] using ih h2

theorem mem_okEvents {l : List (Except Err Event)} {ev : Event}
    (h : ev ∈ okEvents l) : Except.ok ev ∈ l := by
  induction l with
  | nil => cases h
  | cons a rest ih =>
    cases a with
    | error e => exact List.mem_cons_of_mem _ (ih (by simpa [okEvents] using h))
    | ok e =>
      rcases List.mem_cons.mp (by simpa [okEvents] using h) with rfl | h2
      · exact List.mem_cons_self _ _
      · exact List.mem_cons_of_mem _ (ih h2)

theorem okEvents_append (l1 l2 : List (Except Err Event)) :
    okEvents (l1 ++ l2) = okEvents l1 ++ okEvents l2 := by
  induction l1 with
  | nil => rfl
  | cons a rest ih => cases a <;> simp [okEvents, ih]

theorem summaries_append (l1 l2 : List (Except Err Event)) :
    summaries (l1 ++ l2) = summaries l1 ++ summaries l2 := by
  simp [summaries, okEvents_append]

theorem summaries_cons_ok (ev : Event) (l : List (Except Err Event)) :
    summaries (.ok ev :: l) = summarize ev :: summaries l := rfl

theorem write_main_page_ok {c : Collab} {md su hr t d ph pf : String}
    {ss : List (String × Stream)} {ev : Event}
    (h : write_main_page c md su hr t ss d ph pf = .ok ev) :
    ∃ path, c.open_main_page md = .ok path ∧
      ev = .writeMain path (ph ++ c.stream_list_page_html ss ++ d ++ pf) := by
  cases hm : c.open_main_page md with
  | error e => simp [write_main_page, hm] at h
  | ok path =>
    simp [write_main_page, hm] at h
    exact ⟨path, rfl, h.symm⟩

theorem write_stream_topics_ok {c : Collab} {md su hr t sn d ph pf : String}
    {s : Stream} {ev : Event}
    (h : write_stream_topics c md su hr t sn s d ph pf = .ok ev) :
    ∃ path, c.open_stream_topics_page md (c.sanitize_stream sn s.id) = .ok path ∧
      ev = .writeStream sn path
        (ph ++ c.topic_list_page_html sn
            (c.archive_stream_url su hr (c.sanitize_stream sn s.id)) s.topic_data
          ++ d ++ pf) := by
  cases hm : c.open_stream_topics_page md (c.sanitize_stream sn s.id) with
  | error e => simp [write_stream_topics, hm] at h
  | ok path =>
    simp [write_stream_topics, hm] at h
    exact ⟨path, rfl, h.symm⟩

theorem write_topic_messages_ok {c : Collab}
    {jr md su hr t zu zi sn tn d ph pf : String} {s : Stream} {ev : Event}
    (h : write_topic_messages c jr md su hr t zu zi sn s tn d ph pf = .ok ev) :
    ∃ ms path,
      c.read_zulip_messages_for_topic jr (c.sanitize_stream sn s.id) (c.sanitize tn)
          = .ok ms ∧
      c.open_topic_messages_page md (c.sanitize_stream sn s.id) (c.sanitize tn)
          = .ok path ∧
      ev = .writeTopic sn tn path
        (to_topic_page_head_html (htmlEscape tn ++ " · " ++ htmlEscape sn ++ " · " ++ t)
          ++ c.topic_page_links_html su hr zu (c.sanitize_stream sn s.id) (c.sanitize tn) sn tn
          ++ ("\n<head><link href=\"" ++ htmlEscape su ++ "/style.css\" rel=\"stylesheet\"></head>\n")
          ++ String.join (ms.map fun msg =>
              c.format_message_html su hr zu zi sn s.id tn msg ++ "\n\n")
          ++ d ++ pf) := by
  cases hms : c.read_zulip_messages_for_topic jr (c.sanitize_stream sn s.id) (c.sanitize tn) with
  | error e => simp [write_topic_messages, hms] at h
  | ok ms =>
    cases hop : c.open_topic_messages_page md (c.sanitize_stream sn s.id) (c.sanitize tn) with
    | error e => simp [write_topic_messages, hms, hop] at h
    | ok path =>
      simp [write_topic_messages, hms, hop] at h
      exact ⟨ms, path, rfl, rfl, h.symm⟩

theorem write_css_ok {c : Collab} {md : String} {ev : Event}
    (h : write_css c md = .ok ev) :
    ev = .copyFile "style.css" (md ++ "/style.css") := by
  cases hm : c.copyfile_ok "style.css" (md ++ "/style.css") with
  | error e => simp [write_css, hm] at h
  | ok u => simp [write_css, hm] at h; exact h.symm

theorem copyAssetsAction_ok {c : Collab} {rr md : String} {ev : Event}
    (h : copyAssetsAction c rr md = .ok ev) :
    ev = .copyTree (rr ++ "/assets") (md ++ "/assets") := by
  cases hm : c.copytree_ok (rr ++ "/assets") (md ++ "/assets") with
  | error e => simp [copyAssetsAction, hm] at h
  | ok u => simp [copyAssetsAction, hm] at h; exact h.symm

theorem copyNojekyllAction_ok {c : Collab} {rr md : String} {ev : Event}
    (h : copyNojekyllAction c rr md = .ok ev) :
    ev = .copyFile (rr ++ "/.nojekyll") (md ++ "/.nojekyll") := by
  cases hm : c.copyfile_ok (rr ++ "/.nojekyll") (md ++ "/.nojekyll") with
  | error e => simp [copyNojekyllAction, hm] at h
  | ok u => simp [copyNojekyllAction, hm] at h; exact h.symm

theorem summaries_topic_map {c : Collab}
    {jr md su hr t zu zi sn d ph pf : String} {s : Stream} :
    ∀ tops : List (String × Topic),
      (∀ tp ∈ tops,
        isOk (write_topic_messages c jr md su hr t zu zi sn s tp.1 d ph pf) = true) →
      summaries (tops.map fun tp =>
          write_topic_messages c jr md su hr t zu zi sn s tp.1 d ph pf)
        = tops.map fun tp => Ev.topic sn tp.1 := by
  intro tops
  induction tops with
  | nil => intro _; rfl
  | cons tp rest ih =>
    intro hall
    obtain ⟨ev, hev⟩ := isOk_iff.mp (hall tp (List.mem_cons_self _ _))
    obtain ⟨ms, path, _, _, hevEq⟩ := write_topic_messages_ok hev
    rw [List.map_cons, hev, summaries_cons_ok, hevEq]
    rw [ih fun q hq => hall q (List.mem_cons_of_mem _ hq)]
    rfl

theorem summaries_stream_flatMap {c : Collab}
    {jr md su hr t zu zi d ph pf : String} :
    ∀ streams : List (String × Stream),
      (∀ a ∈ streams.flatMap (streamActions c jr md su hr t zu zi d ph pf),
        isOk a = true) →
      summaries (streams.flatMap (streamActions c jr md su hr t zu zi d ph pf))
        = streams.flatMap streamShape := by
  intro streams
  induction streams with
  | nil => intro _; rfl
  | cons p rest ih =>
    intro hall
    rw [List.flatMap_cons, summaries_append, List.flatMap_cons]
    have hblock : ∀ a ∈ streamActions c jr md su hr t zu zi d ph pf p, isOk a = true :=
      fun a ha => hall a (by rw [List.flatMap_cons]; exact List.mem_append_left _ ha)
    have hrest : ∀ a ∈ rest.flatMap (streamActions c jr md su hr t zu zi d ph pf),
        isOk a = true :=
      fun a ha => hall a (by rw [List.flatMap_cons]; exact List.mem_append_right _ ha)
    rw [ih hrest]
    congr 1
    obtain ⟨evS, hevS⟩ := isOk_iff.mp (hblock _ (by
      unfold streamActions
      exact List.mem_cons_of_mem _ (List.mem_cons_self _ _)))
    obtain ⟨pathS, _, hevSEq⟩ := write_stream_topics_ok hevS
    have htops : ∀ tp ∈ p.2.topic_data,
        isOk (write_topic_messages c jr md su hr t zu zi p.1 p.2 tp.1 d ph pf) = true := by
      intro tp htp
      refine hblock _ ?_
      unfold streamActions
      exact List.mem_cons_of_mem _ (List.mem_cons_of_mem _
        (List.mem_map_of_mem _ htp))
    show summaries (.ok (.print "building: " p.1)
        :: write_stream_topics c md su hr t p.1 p.2 d ph pf
        :: p.2.topic_data.map fun tp =>
            write_topic_messages c jr md su hr t zu zi p.1 p.2 tp.1 d ph pf)
      = streamShape p
    rw [summaries_cons_ok, hevS, summaries_cons_ok, hevSEq,
      summaries_topic_map p.2.topic_data htops]
    rfl

theorem summaries_buildActions {c : Collab}
    {jr md su hr t zu zi rr ph pf : String} {si : StreamInfo}
    (hall : ∀ a ∈ buildActions c jr md su hr t zu zi rr ph pf si, isOk a = true) :
    summaries (buildActions c jr md su hr t zu zi rr ph pf si)
      = Ev.main :: Ev.cfile "style.css" (md ++ "/style.css")
          :: (si.streams.flatMap streamShape
              ++ [Ev.ctree (rr ++ "/assets") (md ++ "/assets"),
                  Ev.cfile (rr ++ "/.nojekyll") (md ++ "/.nojekyll")]) := by
  unfold buildActions at hall ⊢
  obtain ⟨evM, hevM⟩ := isOk_iff.mp (hall _ (List.mem_cons_self _ _))
  obtain ⟨pathM, _, hevMEq⟩ := write_main_page_ok hevM
  obtain ⟨evC, hevC⟩ := isOk_iff.mp
    (hall _ (List.mem_cons_of_mem _ (List.mem_cons_self _ _)))
  have hevCEq := write_css_ok hevC
  have hmid : ∀ a ∈ (si.streams.flatMap (streamActions c jr md su hr t zu zi
      (c.last_updated_footer_html si) ph pf)), isOk a = true := by
    intro a ha
    exact hall a (List.mem_cons_of_mem _ (List.mem_cons_of_mem _
      (List.mem_append_left _ ha)))
  obtain ⟨evT, hevT⟩ := isOk_iff.mp (hall _ (List.mem_cons_of_mem _
    (List.mem_cons_of_mem _ (List.mem_append_right _ (List.mem_cons_self _ _)))))
  have hevTEq := copyAssetsAction_ok hevT
  obtain ⟨evN, hevN⟩ := isOk_iff.mp (hall _ (List.mem_cons_of_mem _
    (List.mem_cons_of_mem _ (List.mem_append_right _
      (List.mem_cons_of_mem _ (List.mem_cons_self _ _))))))
  have hevNEq := copyNojekyllAction_ok hevN
  rw [hevM, summaries_cons_ok, hevMEq, hevC, summaries_cons_ok, hevCEq,
    summaries_append, summaries_stream_flatMap si.streams hmid,
    hevT, hevN, summaries_cons_ok, summaries_cons_ok, hevTEq, hevNEq]
  rfl

theorem build_trace_summary {c : Collab}
    {jr md su hr t zu zi rr ph pf : String} {si : StreamInfo}
    (hsi : c.read_zulip_stream_info jr = .ok si)
    (hok : (build_website c jr md su hr t zu zi rr ph pf).2 = none) :
    (build_website c jr md su hr t zu zi rr ph pf).1.map summarize
      = Ev.main :: Ev.cfile "style.css" (md ++ "/style.css")
          :: (si.streams.flatMap streamShape
              ++ [Ev.ctree (rr ++ "/assets") (md ++ "/assets"),
                  Ev.cfile (rr ++ "/.nojekyll") (md ++ "/.nojekyll")]) := by
  have hb : build_website c jr md su hr t zu zi rr ph pf
      = runActions (buildActions c jr md su hr t zu zi rr ph pf si) := by
    simp [build_website, hsi]
  rw [hb] at hok ⊢
  rw [runActions_fst_eq_okEvents hok]
  exact summaries_buildActions (runActions_snd_none hok)

theorem countP_flatMap_streamShape_main (streams : List (String × Stream)) :
    (streams.flatMap streamShape).countP isMainSum = 0 := by
  induction streams with
  | nil => rfl
  | cons p rest ih =>
    rw [List.flatMap_cons, List.countP_append, ih]
    have : (streamShape p).countP isMainSum = 0 := by
      unfold streamShape
      rw [List.countP_cons, List.countP_cons, List.countP_map]
      have h0 : p.2.topic_data.countP ((fun tp => Ev.topic p.1 tp.1) · |> isMainSum) = 0 := by
        induction p.2.topic_data with
        | nil => rfl
        | cons a l ihl => rw [List.countP_cons]; simpa [isMainSum] using ihl
      simpa [isMainSum] using h0
    omega

theorem countP_flatMap_streamShape_stream (streams : List (String × Stream)) :
    (streams.flatMap streamShape).countP isStreamSum = streams.length := by
  induction streams with
  | nil => rfl
  | cons p rest ih =>
    rw [List.flatMap_cons, List.countP_append, ih]
    have : (streamShape p).countP isStreamSum = 1 := by
      unfold streamShape
      rw [List.countP_cons, List.countP_cons, List.countP_map]
      have h0 : p.2.topic_data.countP ((fun tp => Ev.topic p.1 tp.1) · |> isStreamSum) = 0 := by
        induction p.2.topic_data with
        | nil => rfl
        | cons a l ihl => rw [List.countP_cons]; simpa [isStreamSum] using ihl
      simpa [isStreamSum] using h0
    simp [this]
    omega

theorem countP_flatMap_streamShape_topic (streams : List (String × Stream)) :
    (streams.flatMap streamShape).countP isTopicSum
      = (streams.map fun p => p.2.topic_data.length).sum := by
  induction streams with
  | nil => rfl
  | cons p rest ih =>
    rw [List.flatMap_cons, List.countP_append, ih, List.map_cons, List.sum_cons]
    have : (streamShape p).countP isTopicSum = p.2.topic_data.length := by
      unfold streamShape
      rw [List.countP_cons, List.countP_cons, List.countP_map]
      have h0 : p.2.topic_data.countP ((fun tp => Ev.topic p.1 tp.1) · |> isTopicSum)
          = p.2.topic_data.length := by
        induction p.2.topic_data with
        | nil => rfl
        | cons a l ihl =>
          rw [List.countP_cons]
          simpa [isTopicSum] using ihl
      simpa [isTopicSum] using h0
    omega

theorem countP_main_summarize (tr : List Event) :
    tr.countP isMainEv = (tr.map summarize).countP isMainSum := by
  rw [List.countP_map]
  have : isMainSum ∘ summarize = isMainEv := by
    funext e; cases e <;> rfl
  rw [this]

theorem countP_stream_summarize (tr : List Event) :
    tr.countP isStreamEv = (tr.map summarize).countP isStreamSum := by
  rw [List.countP_map]
  have : isStreamSum ∘ summarize = isStreamEv := by
    funext e; cases e <;> rfl
  rw [this]

theorem countP_topic_summarize (tr : List Event) :
    tr.countP isTopicEv = (tr.map summarize).countP isTopicSum := by
  rw [List.countP_map]
  have : isTopicSum ∘ summarize = isTopicEv := by
    funext e; cases e <;> rfl
  rw [this]

theorem runActions_stops_at_first_error (l : List (Except Err Event)) :
    ∃ k, k ≤ l.length ∧ (∀ a ∈ l.take k, isOk a = true) ∧
      (runActions l).1 = okEvents (l.take k) ∧
      ((runActions l).2 = none → k = l.length) ∧
      (∀ e, (runActions l).2 = some e → l.get? k = some (.error e)) := by
  induction l with
  | nil =>
    refine ⟨0, Nat.le_refl _, ?_, rfl, fun _ => rfl, ?_⟩
    · intro a ha; cases ha
    · intro e h; cases h
  | cons a rest ih =>
    cases a with
    | error e =>
      refine ⟨0, Nat.zero_le _, ?_, rfl, ?_, ?_⟩
      · intro b hb; cases hb
      · intro h; cases h
      · intro e2 h
        have : e = e2 := by simpa [runActions] using h
        rw [← this]
        rfl
    | ok ev =>
      obtain ⟨k, hk, hall, htr, hnone, herr⟩ := ih
      refine ⟨k + 1, by simpa using hk, ?_, ?_, ?_, ?_⟩
      · intro b hb
        rcases List.mem_cons.mp (by simpa [List.take_succ_cons] using hb) with rfl | hb2
        · rfl
        · exact hall b hb2
      · rw [List.take_succ_cons]
        show ((runActions rest).1.cons ev) = okEvents (.ok ev :: rest.take k)
        rw [htr]
        rfl
      · intro h
        have h2 : (runActions rest).2 = none := by simpa [runActions] using h
        simp [hnone h2]
      · intro e h
        have h2 : (runActions rest).2 = some e := by simpa [runActions] using h
        simpa using herr e h2

theorem mem_buildActions_page_footer {c : Collab}
    {jr md su hr t zu zi rr ph pf : String} {si : StreamInfo} {ev : Event}
    (ha : Except.ok ev ∈ buildActions c jr md su hr t zu zi rr ph pf si) :
    ∀ ctn, pageContent ev = some ctn →
      ∃ body, ctn = body ++ c.last_updated_footer_html si ++ pf := by
  intro ctn hctn
  unfold buildActions at ha
  rcases List.mem_cons.mp ha with hM | ha
  · obtain ⟨path, _, hevEq⟩ := write_main_page_ok hM.symm
    rw [hevEq] at hctn
    refine ⟨ph ++ c.stream_list_page_html si.streams, ?_⟩
    simpa [pageContent] using hctn.symm
  rcases List.mem_cons.mp ha with hC | ha
  · have := write_css_ok hC.symm
    rw [this] at hctn
    cases hctn
  rcases List.mem_append.mp ha with hMid | hTail
  · rcases List.mem_flatMap.mp hMid with ⟨p, hp, hin⟩
    unfold streamActions at hin
    rcases List.mem_cons.mp hin with hP | hin
    · cases Except.ok.inj hP.symm ▸ hctn
    rcases List.mem_cons.mp hin with hS | hin
    · obtain ⟨path, _, hevEq⟩ := write_stream_topics_ok hS.symm
      rw [hevEq] at hctn
      refine ⟨ph ++ c.topic_list_page_html p.1
        (c.archive_stream_url su hr (c.sanitize_stream p.1 p.2.id)) p.2.topic_data, ?_⟩
      simpa [pageContent] using hctn.symm
    · rcases List.mem_map.mp hin with ⟨tp, _, hT⟩
      obtain ⟨ms, path, _, _, hevEq⟩ := write_topic_messages_ok hT
      rw [hevEq] at hctn
      refine ⟨to_topic_page_head_html
            (htmlEscape tp.1 ++ " · " ++ htmlEscape p.1 ++ " · " ++ t)
          ++ c.topic_page_links_html su hr zu (c.sanitize_stream p.1 p.2.id)
              (c.sanitize tp.1) p.1 tp.1
          ++ ("\n<head><link href=\"" ++ htmlEscape su ++ "/style.css\" rel=\"stylesheet\"></head>\n")
          ++ String.join (ms.map fun msg =>
              c.format_message_html su hr zu zi p.1 p.2.id tp.1 msg ++ "\n\n"), ?_⟩
      simpa [pageContent] using hctn.symm
  · rcases List.mem_cons.mp hTail with hA | hTail
    · have := copyAssetsAction_ok hA.symm
      rw [this] at hctn
      cases hctn
    rcases List.mem_cons.mp hTail with hN | hTail
    · have := copyNojekyllAction_ok hN.symm
      rw [this] at hctn
      cases hctn
    · cases hTail

theorem build_css_get1 {c : Collab}
    {jr md su hr t zu zi rr ph pf : String} {si : StreamInfo}
    (hsi : c.read_zulip_stream_info jr = .ok si)
    (hok : (build_website c jr md su hr t zu zi rr ph pf).2 = none) :
    (build_website c jr md su hr t zu zi rr ph pf).1.get? 1
      = some (Event.copyFile "style.css" (md ++ "/style.css")) := by
  have hs := build_trace_summary hsi hok
  have h1 : ((build_website c jr md su hr t zu zi rr ph pf).1.map summarize).get? 1
      = some (Ev.cfile "style.css" (md ++ "/style.css")) := by
    rw [hs]
    rfl
  rw [List.get?_map] at h1
  cases hg : (build_website c jr md su hr t zu zi rr ph pf).1.get? 1 with
  | none => rw [hg] at h1; cases h1
  | some ev =>
    rw [hg] at h1
    have h2 : summarize ev = Ev.cfile "style.css" (md ++ "/style.css") := by
      simpa using h1
    cases ev <;> simp [summarize] at h2
    rw [h2.1, h2.2]

/-- Claim C1: a successful run of `build_website` over a collection of `N`
streams with `M` topics in total performs exactly one main-page write,
exactly `N` stream-page writes and exactly `M` topic-page writes; a stream
with an empty topic mapping still gets its one stream page and contributes
no topic pages. -/
theorem build_page_counts {c : Collab}
    {jr md su hr t zu zi rr ph pf : String} {si : StreamInfo}
    (hsi : c.read_zulip_stream_info jr = .ok si)
    (hok : (build_website c jr md su hr t zu zi rr ph pf).2 = none) :
    (build_website c jr md su hr t zu zi rr ph pf).1.countP isMainEv = 1
      ∧ (build_website c jr md su hr t zu zi rr ph pf).1.countP isStreamEv
          = si.streams.length
      ∧ (build_website c jr md su hr t zu zi rr ph pf).1.countP isTopicEv
          = (si.streams.map fun p => p.2.topic_data.length).sum := by
  have hs := build_trace_summary hsi hok
  refine ⟨?_, ?_, ?_⟩
  · rw [countP_main_summarize, hs, List.countP_cons, List.countP_cons,
      List.countP_append, countP_flatMap_streamShape_main]
    rfl
  · rw [countP_stream_summarize, hs, List.countP_cons, List.countP_cons,
      List.countP_append, countP_flatMap_streamShape_stream]
    rfl
  · rw [countP_topic_summarize, hs, List.countP_cons, List.countP_cons,
      List.countP_append, countP_flatMap_streamShape_topic]
    rfl

/-- Witness for C1: the demo collection has two streams ("general" with two
topics, "empty" with none) and the successful demo build writes one main
page, two stream pages and two topic pages. -/
theorem build_page_counts_witness :
    okCollab.read_zulip_stream_info "j" = .ok demoSI
      ∧ (build_website okCollab "j" "md" "s" "h" "T" "z" "zi" "r" "PH" "PF").2 = none
      ∧ ((build_website okCollab "j" "md" "s" "h" "T" "z" "zi" "r" "PH" "PF").1.countP isMainEv = 1
          ∧ (build_website okCollab "j" "md" "s" "h" "T" "z" "zi" "r" "PH" "PF").1.countP isStreamEv
              = demoSI.streams.length
          ∧ (build_website okCollab "j" "md" "s" "h" "T" "z" "zi" "r" "PH" "PF").1.countP isTopicEv
              = (demoSI.streams.map fun p => p.2.topic_data.length).sum) :=
  ⟨rfl, rfl, build_page_counts rfl rfl⟩

/-- Claim C6: a successful build emits, in order, the main-page write, the
stylesheet copy from the literal source path, then for each stream in
collection order a progress print, the stream-page write and one topic-page
write per topic in the iteration order of that stream, and finally the asset
tree copy and the `.nojekyll` copy. -/
theorem build_order {c : Collab}
    {jr md su hr t zu zi rr ph pf : String} {si : StreamInfo}
    (hsi : c.read_zulip_stream_info jr = .ok si)
    (hok : (build_website c jr md su hr t zu zi rr ph pf).2 = none) :
    (build_website c jr md su hr t zu zi rr ph pf).1.map summarize
      = Ev.main :: Ev.cfile "style.css" (md ++ "/style.css")
          :: (si.streams.flatMap streamShape
              ++ [Ev.ctree (rr ++ "/assets") (md ++ "/assets"),
                  Ev.cfile (rr ++ "/.nojekyll") (md ++ "/.nojekyll")]) :=
  build_trace_summary hsi hok

/-- Witness for C6: the demo build produces exactly the expected summarized
trace. -/
theorem build_order_witness :
    okCollab.read_zulip_stream_info "j" = .ok demoSI
      ∧ (build_website okCollab "j" "md" "s" "h" "T" "z" "zi" "r" "PH" "PF").2 = none
      ∧ (build_website okCollab "j" "md" "s" "h" "T" "z" "zi" "r" "PH" "PF").1.map summarize
          = Ev.main :: Ev.cfile "style.css" ("md" ++ "/style.css")
              :: (demoSI.streams.flatMap streamShape
                  ++ [Ev.ctree ("r" ++ "/assets") ("md" ++ "/assets"),
                      Ev.cfile ("r" ++ "/.nojekyll") ("md" ++ "/.nojekyll")]) :=
  ⟨rfl, rfl, build_order rfl rfl⟩

/-- Counterexample to C3 as stated: in the successful demo build the
stylesheet is copied at trace position 1, before the stream-page write at
position 3, so not every asset-publication write happens after every page
write. -/
theorem css_before_stream_pages_cex :
    ∃ i j, i < j
      ∧ ((build_website okCollab "j" "md" "s" "h" "T" "z" "zi" "r" "PH" "PF").1.map summarize).get? i
          = some (Ev.cfile "style.css" "md/style.css")
      ∧ ((build_website okCollab "j" "md" "s" "h" "T" "z" "zi" "r" "PH" "PF").1.map summarize).get? j
          = some (Ev.stream "general")
      ∧ (build_website okCollab "j" "md" "s" "h" "T" "z" "zi" "r" "PH" "PF").2 = none := by
  refine ⟨1, 3, by omega, rfl, rfl, rfl⟩

/-- Claim C3 (amended): the asset-tree copy and the `.nojekyll` copy are the
last two effects of a successful build, after every page write; the
stylesheet copy, however, happens directly after the main-page write and
before all stream-page and topic-page writes. -/
theorem assets_after_pages {c : Collab}
    {jr md su hr t zu zi rr ph pf : String} {si : StreamInfo}
    (hsi : c.read_zulip_stream_info jr = .ok si)
    (hok : (build_website c jr md su hr t zu zi rr ph pf).2 = none) :
    ∃ mid, (build_website c jr md su hr t zu zi rr ph pf).1.map summarize
        = Ev.main :: Ev.cfile "style.css" (md ++ "/style.css")
            :: (mid ++ [Ev.ctree (rr ++ "/assets") (md ++ "/assets"),
                        Ev.cfile (rr ++ "/.nojekyll") (md ++ "/.nojekyll")])
      ∧ ∀ x ∈ mid, (∃ a, x = Ev.print a) ∨ (∃ sn, x = Ev.stream sn)
          ∨ ∃ sn tn, x = Ev.topic sn tn := by
  refine ⟨si.streams.flatMap streamShape, build_trace_summary hsi hok, ?_⟩
  intro x hx
  rcases List.mem_flatMap.mp hx with ⟨p, hp, hxp⟩
  unfold streamShape at hxp
  rcases List.mem_cons.mp hxp with rfl | hxp
  · exact Or.inl ⟨p.1, rfl⟩
  rcases List.mem_cons.mp hxp with rfl | hxp
  · exact Or.inr (Or.inl ⟨p.1, rfl⟩)
  · rcases List.mem_map.mp hxp with ⟨tp, _, rfl⟩
    exact Or.inr (Or.inr ⟨p.1, tp.1, rfl⟩)

/-- Witness for the amended C3 on the demo build. -/
theorem assets_after_pages_witness :
    okCollab.read_zulip_stream_info "j" = .ok demoSI
      ∧ (build_website okCollab "j" "md" "s" "h" "T" "z" "zi" "r" "PH" "PF").2 = none
      ∧ ∃ mid, (build_website okCollab "j" "md" "s" "h" "T" "z" "zi" "r" "PH" "PF").1.map summarize
          = Ev.main :: Ev.cfile "style.css" ("md" ++ "/style.css")
              :: (mid ++ [Ev.ctree ("r" ++ "/assets") ("md" ++ "/assets"),
                          Ev.cfile ("r" ++ "/.nojekyll") ("md" ++ "/.nojekyll")])
        ∧ ∀ x ∈ mid, (∃ a, x = Ev.print a) ∨ (∃ sn, x = Ev.stream sn)
            ∨ ∃ sn tn, x = Ev.topic sn tn :=
  ⟨rfl, rfl, assets_after_pages rfl rfl⟩

/-- Claim C10: `write_css` copies from the literal relative path
`style.css`, so two successful builds that differ only in `repo_root`
publish the same stylesheet: the copy event at trace position 1 is
identical in both runs and its source is the working-directory-relative
literal, not a `repo_root`-derived path. -/
theorem css_source_independent_of_repo_root {c : Collab}
    {jr md su hr t zu zi r1 r2 ph pf : String} {si : StreamInfo}
    (hsi : c.read_zulip_stream_info jr = .ok si)
    (h1 : (build_website c jr md su hr t zu zi r1 ph pf).2 = none)
    (h2 : (build_website c jr md su hr t zu zi r2 ph pf).2 = none) :
    (build_website c jr md su hr t zu zi r1 ph pf).1.get? 1
        = some (Event.copyFile "style.css" (md ++ "/style.css"))
      ∧ (build_website c jr md su hr t zu zi r2 ph pf).1.get? 1
        = (build_website c jr md su hr t zu zi r1 ph pf).1.get? 1 := by
  refine ⟨build_css_get1 hsi h1, ?_⟩
  rw [build_css_get1 hsi h1, build_css_get1 hsi h2]

/-- Witness for C10: two demo builds with distinct repo roots share the same
stylesheet copy event. -/
theorem css_source_independent_of_repo_root_witness :
    okCollab.read_zulip_stream_info "j" = .ok demoSI
      ∧ (build_website okCollab "j" "md" "s" "h" "T" "z" "zi" "r1" "PH" "PF").2 = none
      ∧ (build_website okCollab "j" "md" "s" "h" "T" "z" "zi" "r2" "PH" "PF").2 = none
      ∧ ((build_website okCollab "j" "md" "s" "h" "T" "z" "zi" "r1" "PH" "PF").1.get? 1
            = some (Event.copyFile "style.css" ("md" ++ "/style.css"))
          ∧ (build_website okCollab "j" "md" "s" "h" "T" "z" "zi" "r2" "PH" "PF").1.get? 1
            = (build_website okCollab "j" "md" "s" "h" "T" "z" "zi" "r1" "PH" "PF").1.get? 1) :=
  ⟨rfl, rfl, rfl, css_source_independent_of_repo_root rfl rfl rfl⟩

set_option maxRecDepth 8192 in
/-- Counterexample to C2 as stated: with site title `<T>` the head actually
written keeps the title verbatim, and the fully-escaped head string the
claim describes is not a prefix of the page content. -/
theorem topic_title_unescaped_cex :
    ∃ path content,
      write_topic_messages okCollab "j" "md" "s" "h" "<T>" "z" "zi" "general"
          ⟨1, [("welcome", "t1"), ("lunch", "t2")]⟩ "welcome" "D" "PH" "PF"
        = .ok (.writeTopic "general" "welcome" path content)
      ∧ (spec_topic_page_head_html "welcome" "general" "<T>").data.isPrefixOf content.data = false
      ∧ (to_topic_page_head_html
            (htmlEscape "welcome" ++ " · " ++ htmlEscape "general" ++ " · " ++ "<T>")).data.isPrefixOf
          content.data = true := by
  refine ⟨"md/1-general/welcome.html",
    "<html>\n<head><meta charset=\"utf-8\"><title>welcome · general · <T></title></head>\n[links]\n<head><link href=\"s/style.css\" rel=\"stylesheet\"></head>\n<p>hello</p>\n\n<p>world</p>\n\nDPF",
    by rfl, by decide, by decide⟩

/-- Claim C2 (amended): the head written first to a topic page is
`to_topic_page_head_html` of the string built from the HTML-escaped topic
name, the HTML-escaped stream name and the verbatim (unescaped) site
title, joined by `" · "`. -/
theorem topic_page_head_escaping {c : Collab}
    {jr md su hr t zu zi sn tn d ph pf : String} {s : Stream} {ev : Event}
    (hev : write_topic_messages c jr md su hr t zu zi sn s tn d ph pf = .ok ev) :
    ∃ path rest, ev = .writeTopic sn tn path
      (to_topic_page_head_html
          (htmlEscape tn ++ " · " ++ htmlEscape sn ++ " · " ++ t) ++ rest) := by
  obtain ⟨ms, path, _, _, hevEq⟩ := write_topic_messages_ok hev
  refine ⟨path,
    c.topic_page_links_html su hr zu (c.sanitize_stream sn s.id) (c.sanitize tn) sn tn
      ++ (("\n<head><link href=\"" ++ htmlEscape su ++ "/style.css\" rel=\"stylesheet\"></head>\n")
      ++ (String.join (ms.map fun msg =>
            c.format_message_html su hr zu zi sn s.id tn msg ++ "\n\n")
      ++ (d ++ pf))), ?_⟩
  rw [hevEq]
  simp [String.append_assoc]

/-- Witness for the amended C2 on a concrete topic write. -/
theorem topic_page_head_escaping_witness :
    write_topic_messages okCollab "j" "md" "s" "h" "<T>" "z" "zi" "general"
        ⟨1, [("welcome", "t1"), ("lunch", "t2")]⟩ "welcome" "D" "PH" "PF"
      = .ok (.writeTopic "general" "welcome" "md/1-general/welcome.html"
          ("<html>\n<head><meta charset=\"utf-8\"><title>welcome · general · <T></title></head>\n[links]\n<head><link href=\"s/style.css\" rel=\"stylesheet\"></head>\n<p>hello</p>\n\n<p>world</p>\n\nDPF"))
      ∧ ∃ path rest,
        Event.writeTopic "general" "welcome" "md/1-general/welcome.html"
            ("<html>\n<head><meta charset=\"utf-8\"><title>welcome · general · <T></title></head>\n[links]\n<head><link href=\"s/style.css\" rel=\"stylesheet\"></head>\n<p>hello</p>\n\n<p>world</p>\n\nDPF")
          = .writeTopic "general" "welcome" path
            (to_topic_page_head_html
                (htmlEscape "welcome" ++ " · " ++ htmlEscape "general" ++ " · " ++ "<T>") ++ rest) :=
  ⟨rfl, @topic_page_head_escaping okCollab "j" "md" "s" "h" "<T>" "z" "zi"
    "general" "welcome" "D" "PH" "PF" ⟨1, [("welcome", "t1"), ("lunch", "t2")]⟩ _ (by rfl)⟩

/-- Claim C4: a topic page contains the rendered fragment of every message
returned by the message reader for that topic, in the same order, each
fragment followed by exactly one blank-line separator. -/
theorem topic_page_message_order {c : Collab}
    {jr md su hr t zu zi sn tn d ph pf : String} {s : Stream}
    {ms : List Msg} {ev : Event}
    (hms : c.read_zulip_messages_for_topic jr (c.sanitize_stream sn s.id) (c.sanitize tn)
        = .ok ms)
    (hev : write_topic_messages c jr md su hr t zu zi sn s tn d ph pf = .ok ev) :
    ∃ path pre post, ev = .writeTopic sn tn path
      (pre ++ String.join (ms.map fun msg =>
          c.format_message_html su hr zu zi sn s.id tn msg ++ "\n\n") ++ post) := by
  obtain ⟨ms2, path, hms2, _, hevEq⟩ := write_topic_messages_ok hev
  have hmseq : ms2 = ms := by
    rw [hms] at hms2
    exact (Except.ok.inj hms2).symm
  subst hmseq
  refine ⟨path,
    to_topic_page_head_html (htmlEscape tn ++ " · " ++ htmlEscape sn ++ " · " ++ t)
      ++ c.topic_page_links_html su hr zu (c.sanitize_stream sn s.id) (c.sanitize tn) sn tn
      ++ ("\n<head><link href=\"" ++ htmlEscape su ++ "/style.css\" rel=\"stylesheet\"></head>\n"),
    d ++ pf, ?_⟩
  rw [hevEq]
  simp [String.append_assoc]

/-- Witness for C4: the demo reader returns two messages and the written
page embeds both rendered fragments, in order, each with its separator. -/
theorem topic_page_message_order_witness :
    okCollab.read_zulip_messages_for_topic "j" (okCollab.sanitize_stream "general" 1)
        (okCollab.sanitize "welcome") = .ok ["hello", "world"]
      ∧ ∃ path pre post,
          Event.writeTopic "general" "welcome" "md/1-general/welcome.html"
              ("<html>\n<head><meta charset=\"utf-8\"><title>welcome · general · <T></title></head>\n[links]\n<head><link href=\"s/style.css\" rel=\"stylesheet\"></head>\n<p>hello</p>\n\n<p>world</p>\n\nDPF")
            = .writeTopic "general" "welcome" path
              (pre ++ String.join ((["hello", "world"] : List Msg).map fun msg =>
                  okCollab.format_message_html "s" "h" "z" "zi" "general"
                    (1 : Int) "welcome" msg ++ "\n\n") ++ post) := by
  refine ⟨rfl, ?_⟩
  exact @topic_page_message_order okCollab "j" "md" "s" "h" "<T>" "z" "zi"
    "general" "welcome" "D" "PH" "PF" ⟨1, [("welcome", "t1"), ("lunch", "t2")]⟩
    ["hello", "world"] _ (by rfl) (by rfl)

/-- Claim C5: in a successful build every page write (main, stream and
topic) carries the same footer pair — the date footer computed once from
the loaded stream info followed by the static page footer — as the suffix
of its content. -/
theorem build_footer_threaded {c : Collab}
    {jr md su hr t zu zi rr ph pf : String} {si : StreamInfo}
    (hsi : c.read_zulip_stream_info jr = .ok si)
    (hok : (build_website c jr md su hr t zu zi rr ph pf).2 = none) :
    ∀ ev ∈ (build_website c jr md su hr t zu zi rr ph pf).1,
      ∀ ctn, pageContent ev = some ctn →
        ∃ body, ctn = body ++ c.last_updated_footer_html si ++ pf := by
  have hb : build_website c jr md su hr t zu zi rr ph pf
      = runActions (buildActions c jr md su hr t zu zi rr ph pf si) := by
    simp [build_website, hsi]
  rw [hb] at hok ⊢
  rw [runActions_fst_eq_okEvents hok]
  intro ev hev
  exact mem_buildActions_page_footer (mem_okEvents hev)

/-- Witness for C5: in the demo build the main-page content ends with the
shared footer pair. -/
theorem build_footer_threaded_witness :
    okCollab.read_zulip_stream_info "j" = .ok demoSI
      ∧ (build_website okCollab "j" "md" "s" "h" "T" "z" "zi" "r" "PH" "PF").2 = none
      ∧ Event.writeMain "md/index.html" "PH<ul>2</ul><hr>updated 2021-04PF"
          ∈ (build_website okCollab "j" "md" "s" "h" "T" "z" "zi" "r" "PH" "PF").1
      ∧ ∃ body, "PH<ul>2</ul><hr>updated 2021-04PF"
          = body ++ okCollab.last_updated_footer_html demoSI ++ "PF" := by
  refine ⟨rfl, rfl, ?_, ?_⟩
  · decide
  · exact @build_footer_threaded okCollab "j" "md" "s" "h" "T" "z" "zi" "r" "PH" "PF"
      demoSI rfl (by rfl)
      (Event.writeMain "md/index.html" "PH<ul>2</ul><hr>updated 2021-04PF")
      (by decide) _ rfl

/-- Claim C9: a topic page gets two head elements — the title-bearing one
first, closed before the navigation links, and a second one containing only
the stylesheet link after them — and the shared `page_head_html` argument
has no effect on the write at all. -/
theorem topic_page_two_heads {c : Collab}
    {jr md su hr t zu zi sn tn d pf : String} {s : Stream} :
    (∀ ph1 ph2, write_topic_messages c jr md su hr t zu zi sn s tn d ph1 pf
        = write_topic_messages c jr md su hr t zu zi sn s tn d ph2 pf)
      ∧ ∀ ph ev, write_topic_messages c jr md su hr t zu zi sn s tn d ph pf = .ok ev →
          ∃ path body, ev = .writeTopic sn tn path
            (to_topic_page_head_html
                (htmlEscape tn ++ " · " ++ htmlEscape sn ++ " · " ++ t)
              ++ c.topic_page_links_html su hr zu (c.sanitize_stream sn s.id)
                  (c.sanitize tn) sn tn
              ++ ("\n<head><link href=\"" ++ htmlEscape su ++ "/style.css\" rel=\"stylesheet\"></head>\n")
              ++ body) := by
  refine ⟨fun ph1 ph2 => rfl, ?_⟩
  intro ph ev hev
  obtain ⟨ms, path, _, _, hevEq⟩ := write_topic_messages_ok hev
  refine ⟨path,
    String.join (ms.map fun msg =>
        c.format_message_html su hr zu zi sn s.id tn msg ++ "\n\n")
      ++ (d ++ pf), ?_⟩
  rw [hevEq]
  simp [String.append_assoc]

/-- Witness for C9 on the concrete topic write of the demo collaborators:
two different shared page heads give the identical write, and the written
event carries the title head, then the links, then the second stylesheet
head. -/
theorem topic_page_two_heads_witness :
    write_topic_messages okCollab "j" "md" "s" "h" "<T>" "z" "zi" "general"
        ⟨1, [("welcome", "t1"), ("lunch", "t2")]⟩ "welcome" "D" "PH1" "PF"
      = write_topic_messages okCollab "j" "md" "s" "h" "<T>" "z" "zi" "general"
        ⟨1, [("welcome", "t1"), ("lunch", "t2")]⟩ "welcome" "D" "PH2" "PF"
      ∧ ∃ path body,
        Event.writeTopic "general" "welcome" "md/1-general/welcome.html"
            ("<html>\n<head><meta charset=\"utf-8\"><title>welcome · general · <T></title></head>\n[links]\n<head><link href=\"s/style.css\" rel=\"stylesheet\"></head>\n<p>hello</p>\n\n<p>world</p>\n\nDPF")
          = .writeTopic "general" "welcome" path
            (to_topic_page_head_html
                (htmlEscape "welcome" ++ " · " ++ htmlEscape "general" ++ " · " ++ "<T>")
              ++ okCollab.topic_page_links_html "s" "h" "z"
                  (okCollab.sanitize_stream "general" 1) (okCollab.sanitize "welcome")
                  "general" "welcome"
              ++ ("\n<head><link href=\"" ++ htmlEscape "s" ++ "/style.css\" rel=\"stylesheet\"></head>\n")
              ++ body) :=
  ⟨(@topic_page_two_heads okCollab "j" "md" "s" "h" "<T>" "z" "zi" "general" "welcome"
      "D" "PF" ⟨1, [("welcome", "t1"), ("lunch", "t2")]⟩).1 "PH1" "PH2",
   (@topic_page_two_heads okCollab "j" "md" "s" "h" "<T>" "z" "zi" "general" "welcome"
      "D" "PF" ⟨1, [("welcome", "t1"), ("lunch", "t2")]⟩).2 "PH"
      (Event.writeTopic "general" "welcome" "md/1-general/welcome.html"
        ("<html>\n<head><meta charset=\"utf-8\"><title>welcome · general · <T></title></head>\n[links]\n<head><link href=\"s/style.css\" rel=\"stylesheet\"></head>\n<p>hello</p>\n\n<p>world</p>\n\nDPF"))
      (by rfl)⟩

/-- Claim C7: the build output is a deterministic function of its inputs
and collaborator results: two runs with the same collaborators (including
any fixed injected footer timestamp inside `last_updated_footer_html`) and
the same configuration produce identical traces, hence byte-identical page
contents, and the identical final result. -/
theorem build_deterministic
    (c1 c2 : Collab) (jr1 jr2 md1 md2 su1 su2 hr1 hr2 t1 t2 zu1 zu2 zi1 zi2
      rr1 rr2 ph1 ph2 pf1 pf2 : String)
    (hc : c1 = c2) (hjr : jr1 = jr2) (hmd : md1 = md2) (hsu : su1 = su2)
    (hhr : hr1 = hr2) (ht : t1 = t2) (hzu : zu1 = zu2) (hzi : zi1 = zi2)
    (hrr : rr1 = rr2) (hph : ph1 = ph2) (hpf : pf1 = pf2) :
    build_website c1 jr1 md1 su1 hr1 t1 zu1 zi1 rr1 ph1 pf1
      = build_website c2 jr2 md2 su2 hr2 t2 zu2 zi2 rr2 ph2 pf2 := by
  subst hc hjr hmd hsu hhr ht hzu hzi hrr hph hpf
  rfl

/-- Witness for C7 at the demo inputs. -/
theorem build_deterministic_witness :
    build_website okCollab "j" "md" "s" "h" "T" "z" "zi" "r" "PH" "PF"
      = build_website okCollab "j" "md" "s" "h" "T" "z" "zi" "r" "PH" "PF" :=
  build_deterministic okCollab okCollab "j" "j" "md" "md" "s" "s" "h" "h" "T" "T"
    "z" "z" "zi" "zi" "r" "r" "PH" "PH" "PF" "PF"
    rfl rfl rfl rfl rfl rfl rfl rfl rfl rfl rfl

/-- Claim C8: `build_website` performs no local recovery: when the result
carries an error, either the stream-info load itself failed and nothing was
written, or the trace consists exactly of the events of the successful
prefix of the statement sequence and the next statement is the failing one
— no page write or asset copy after the failure point is performed. -/
theorem build_error_propagation {c : Collab}
    {jr md su hr t zu zi rr ph pf : String} {e : Err}
    (h : (build_website c jr md su hr t zu zi rr ph pf).2 = some e) :
    ((build_website c jr md su hr t zu zi rr ph pf).1 = []
        ∧ c.read_zulip_stream_info jr = .error e)
      ∨ ∃ si k, c.read_zulip_stream_info jr = .ok si
          ∧ k ≤ (buildActions c jr md su hr t zu zi rr ph pf si).length
          ∧ (∀ a ∈ (buildActions c jr md su hr t zu zi rr ph pf si).take k,
              isOk a = true)
          ∧ (build_website c jr md su hr t zu zi rr ph pf).1
              = okEvents ((buildActions c jr md su hr t zu zi rr ph pf si).take k)
          ∧ (buildActions c jr md su hr t zu zi rr ph pf si).get? k
              = some (.error e) := by
  cases hsi : c.read_zulip_stream_info jr with
  | error e2 =>
    left
    have hb : build_website c jr md su hr t zu zi rr ph pf = ([], some e2) := by
      simp [build_website, hsi]
    rw [hb] at h
    have he : e2 = e := by simpa using h
    subst he
    exact ⟨by rw [hb], rfl⟩
  | ok si =>
    right
    have hb : build_website c jr md su hr t zu zi rr ph pf
        = runActions (buildActions c jr md su hr t zu zi rr ph pf si) := by
      simp [build_website, hsi]
    obtain ⟨k, hk, hall, htr, _, herr⟩ :=
      runActions_stops_at_first_error (buildActions c jr md su hr t zu zi rr ph pf si)
    refine ⟨si, k, rfl, hk, hall, ?_, ?_⟩
    · rw [hb]
      exact htr
    · exact herr e (by rw [← hb]; exact h)

/-- Witness for C8: with a collaborator whose stream-page open raises, the
build aborts with that error and the trace stops at the failing action. -/
theorem build_error_propagation_witness :
    (build_website failCollab "j" "md" "s" "h" "T" "z" "zi" "r" "PH" "PF").2 = some "boom"
      ∧ (((build_website failCollab "j" "md" "s" "h" "T" "z" "zi" "r" "PH" "PF").1 = []
            ∧ failCollab.read_zulip_stream_info "j" = .error "boom")
        ∨ ∃ si k, failCollab.read_zulip_stream_info "j" = .ok si
            ∧ k ≤ (buildActions failCollab "j" "md" "s" "h" "T" "z" "zi" "r" "PH" "PF" si).length
            ∧ (∀ a ∈ (buildActions failCollab "j" "md" "s" "h" "T" "z" "zi" "r" "PH" "PF" si).take k,
                isOk a = true)
            ∧ (build_website failCollab "j" "md" "s" "h" "T" "z" "zi" "r" "PH" "PF").1
                = okEvents ((buildActions failCollab "j" "md" "s" "h" "T" "z" "zi" "r" "PH" "PF" si).take k)
            ∧ (buildActions failCollab "j" "md" "s" "h" "T" "z" "zi" "r" "PH" "PF" si).get? k
                = some (.error "boom")) :=
  ⟨rfl, @build_error_propagation failCollab "j" "md" "s" "h" "T" "z" "zi" "r" "PH" "PF"
    "boom" rfl⟩

end ZulipArchive
